import Mathlib

/-!
Shallow embedding of the Z-Image provider-dispatch layer
(`src/app/api/status/video/route.ts`, third segment: the ModelScope & Gitee
adapter module).  Pure computations are translated directly; the module-level
mutable rotation counter `giteeKeyIndex` is threaded as explicit state; network
effects (`fetch`, `uploadToPicUI`, `Date.now`) become oracle parameters; thrown
`Error`s become `Except String` with the source's message strings.

JavaScript truthiness on the optional string/number fields of the source is
modelled explicitly: an absent (`none`) or empty-string / zero value is falsy.
-/

namespace ZImage

/-- JS `String.prototype.split(',')` at the character level: split the
character list at every `','`, keeping empty segments (so `"".split(',')`
is `[""]`). -/
def splitCommaChars : List Char → List (List Char)
  | [] => [[]]
  | c :: rest =>
    if c = ',' then [] :: splitCommaChars rest
    else
      match splitCommaChars rest with
      | g :: gs => (c :: g) :: gs
      | [] => [[c]]

/-- JS `keys.split(',')`. -/
def splitComma (s : String) : List String :=
  (splitCommaChars s.data).map List.asString

/-- JS `String.prototype.trim()`: strip leading and trailing whitespace. -/
def jsTrim (s : String) : String :=
  (((s.data.dropWhile Char.isWhitespace).reverse.dropWhile
    Char.isWhitespace).reverse).asString

/-- JS `v || d` for an optional string: absent and `""` are falsy. -/
def jsOr (v : Option String) (d : String) : String :=
  match v with
  | none => d
  | some s => if s = "" then d else s

/-- JS truthiness of an optional string: present and non-empty. -/
def jsTruthy (v : Option String) : Bool :=
  match v with
  | none => false
  | some s => s ≠ ""

-- ========================================
-- Data model (from `@/types` usage and the interfaces in the source)
-- ========================================

/-- One reference-image descriptor: `{data: string}`. -/
structure ZImageRef where
  data : String
deriving Repr, DecidableEq

/-- Pricing table part of the system config. -/
structure Pricing where
  giteeImage : Option Nat
  zimageImage : Option Nat
deriving Repr, DecidableEq

/-- `getSystemConfig` result, the fields the module reads. -/
structure SystemConfig where
  giteeApiKey : Option String := none
  giteeBaseUrl : Option String := none
  zimageApiKey : Option String := none
  zimageBaseUrl : Option String := none
  picuiApiKey : Option String := none
  pricing : Option Pricing := none
deriving Repr, DecidableEq

/-- `ZImageGenerateRequest` fields the module reads. -/
structure ZImageGenerateRequest where
  prompt : String
  model : Option String := none
  channel : Option String := none
  size : Option String := none
  numInferenceSteps : Option Nat := none
  loras : Option String := none
  images : Option (List ZImageRef) := none
deriving Repr, DecidableEq

/-- `GenerateResult`: channel tag, data-URI image, cost. -/
structure GenerateResult where
  type : String
  url : String
  cost : Nat
deriving Repr, DecidableEq

/-- `ASYNC_MODELS` set. -/
def ASYNC_MODELS : List String :=
  ["Qwen/Qwen-Image-Edit-2509", "Qwen/Qwen-Image", "black-forest-labs/FLUX.2-dev"]

/-- `REQUIRE_REFERENCE_MODELS` set. -/
def REQUIRE_REFERENCE_MODELS : List String :=
  ["Qwen/Qwen-Image-Edit-2509"]

def TASK_POLL_MAX_ATTEMPTS : Nat := 60

-- ========================================
-- Key Rotator (`getNextGiteeApiKey`)
-- ========================================

/-- `keys.split(',').map(k => k.trim()).filter(k => k)`. -/
def splitKeys (keys : String) : List String :=
  ((splitComma keys).map jsTrim).filter (fun k => k ≠ "")

/-- `getNextGiteeApiKey`: the module-level counter `giteeKeyIndex` is passed in
and the (possibly updated) counter is returned alongside the result.  On the
empty-list error the counter is returned unchanged, as in the source the
`giteeKeyIndex++` is never reached. -/
def getNextGiteeApiKey (keys : String) (giteeKeyIndex : Nat) :
    Except String String × Nat :=
  let keyList := splitKeys keys
  if keyList.length = 0 then
    (.error "Gitee API Key 未配置", giteeKeyIndex)
  else
    (.ok (keyList.getD (giteeKeyIndex % keyList.length) ""), giteeKeyIndex + 1)

/-- The key sequence produced by `n` successive rotator calls starting from
counter value `c` (each call feeds its updated counter to the next). -/
def rotatorRun (keys : String) (c : Nat) : Nat → List String
  | 0 => []
  | n + 1 =>
    match getNextGiteeApiKey keys c with
    | (.ok k, c') => k :: rotatorRun keys c' n
    | (.error _, _) => []

-- ========================================
-- Image download (`downloadImageAsBase64`)
-- ========================================

/-- The observable part of a `fetch` of an image: its HTTP success flag and
status, the base64 encoding of its bytes, and its content-type header
(`headers.get` may return null, and `||` also treats `""` as absent). -/
structure DownloadReply where
  ok : Bool
  status : Nat
  base64 : String
  contentType : Option String
deriving Repr, DecidableEq

/-- `downloadImageAsBase64`, with the network modelled by the oracle
`fetchImage : url → DownloadReply`. -/
def downloadImageAsBase64 (fetchImage : String → DownloadReply)
    (imageUrl : String) : Except String String :=
  let r := fetchImage imageUrl
  if !r.ok then
    .error ("下载图片失败 (" ++ toString r.status ++ ")")
  else
    .ok ("data:" ++ jsOr r.contentType "image/jpeg" ++ ";base64," ++ r.base64)

-- ========================================
-- Reference Resolver (`resolveImageUrls`)
-- ========================================

/-- `isHttpUrl`: JS `startsWith`, expressed on the character lists. -/
def isHttpUrl (value : String) : Bool :=
  "http://".data.isPrefixOf value.data || "https://".data.isPrefixOf value.data

/-- The filename synthesized for the upload of entry `i`:
`input_${Date.now()}_${i}.jpg`. -/
def uploadFilename (now i : Nat) : String :=
  "input_" ++ toString now ++ "_" ++ toString i ++ ".jpg"

/-- Loop body of `resolveImageUrls`, with the loop index `i` explicit.
`nowAt i` models the `Date.now()` reading in iteration `i`; `upload` models
`uploadToPicUI` (returning `none` for a null result, and an empty-string
result is also treated as falsy by the `if (!url)` check). -/
def resolveImageUrlsAux (config : SystemConfig) (nowAt : Nat → Nat)
    (upload : String → String → Option String) :
    List ZImageRef → Nat → Except String (List String)
  | [], _ => .ok []
  | img :: rest, i =>
    let data := img.data
    if data = "" then
      resolveImageUrlsAux config nowAt upload rest (i + 1)
    else if isHttpUrl data then
      (resolveImageUrlsAux config nowAt upload rest (i + 1)).map (data :: ·)
    else if !jsTruthy config.picuiApiKey then
      .error "参考图需要配置 PicUI 图床"
    else
      let url := (upload data (uploadFilename (nowAt i) i)).getD ""
      if url = "" then
        .error "参考图上传失败，请稍后重试"
      else
        (resolveImageUrlsAux config nowAt upload rest (i + 1)).map (url :: ·)

/-- `resolveImageUrls`. -/
def resolveImageUrls (images : List ZImageRef) (config : SystemConfig)
    (nowAt : Nat → Nat) (upload : String → String → Option String) :
    Except String (List String) :=
  resolveImageUrlsAux config nowAt upload images 0

-- ========================================
-- Task Poller (`pollModelScopeTask`)
-- ========================================

/-- One parsed `ModelScopeTaskResponse` body. -/
structure ModelScopeTaskResponse where
  task_status : String
  output_images : Option (List String)
  message : Option String
deriving Repr, DecidableEq

/-- The observable outcome of one task-status GET: either a non-ok HTTP
response (status plus body text) or an ok response with a parsed body. -/
inductive TaskPollReply where
  | httpError (status : Nat) (text : String)
  | body (r : ModelScopeTaskResponse)
deriving Repr, DecidableEq

/-- The poll loop of `pollModelScopeTask`, by remaining attempts; `attempt`
is the source's loop counter, `replies attempt` the response to the GET of
that attempt.  The 5-second sleep has no observable effect here. -/
def pollAttempts (replies : Nat → TaskPollReply) :
    Nat → Nat → Except String String
  | _, 0 => .error "ModelScope 任务超时"
  | attempt, remaining + 1 =>
    match replies attempt with
    | .httpError status text =>
      .error ("ModelScope 任务查询失败 (" ++ toString status ++ "): " ++ text)
    | .body d =>
      if d.task_status = "SUCCEED" then
        let outputUrl := ((d.output_images).getD []).headD ""
        if outputUrl = "" then
          .error "ModelScope 任务完成但未返回图片"
        else
          .ok outputUrl
      else if d.task_status = "FAILED" then
        .error (jsOr d.message "ModelScope 任务失败")
      else
        pollAttempts replies (attempt + 1) remaining

/-- `pollModelScopeTask` (the `baseUrl`/`apiKey`/`taskId` arguments only shape
the request URL and headers, which the oracle `replies` abstracts). -/
def pollModelScopeTask (replies : Nat → TaskPollReply) : Except String String :=
  pollAttempts replies 0 TASK_POLL_MAX_ATTEMPTS

-- ========================================
-- Error-body handling shared by both adapters
-- ========================================

/-- What `JSON.parse(errorText)` yields when it succeeds: the two optional
message fields the source reads (`errJson.error?.message`, `errJson.message`).
`none` and `""` are both falsy for the `||` chain. -/
structure JsonErrObj where
  errorMessage : Option String
  message : Option String
deriving Repr, DecidableEq

/-- A non-2xx response body: either parseable JSON (with its raw text kept for
the fallback) or unparseable raw text. -/
inductive HttpErrorBody where
  | json (j : JsonErrObj) (raw : String)
  | notJson (raw : String)
deriving Repr, DecidableEq

/-- `errJson.error?.message || errJson.message || errorText`, or the raw text
when parsing throws. -/
def extractErrMsg : HttpErrorBody → String
  | .notJson raw => raw
  | .json j raw => jsOr j.errorMessage (jsOr j.message raw)

-- ========================================
-- Gitee Adapter (`generateWithGitee`)
-- ========================================

/-- One entry of a Gitee success body; `type` may be missing at runtime
(the source defaults it with `||`). -/
structure GiteeImageEntry where
  b64_json : String
  type : Option String
deriving Repr, DecidableEq

/-- The observable outcome of the Gitee generation POST: non-ok response, or
ok response with the parsed `data` array (which may be absent: `!data.data`). -/
inductive GiteeReply where
  | httpError (status : Nat) (body : HttpErrorBody)
  | success (data : Option (List GiteeImageEntry))
deriving Repr, DecidableEq

/-- The JSON payload built by `generateWithGitee`; a `none` field is a spread
that contributed nothing. -/
structure GiteePayload where
  prompt : String
  model : String
  size : Option String
  num_inference_steps : Option Nat
deriving Repr, DecidableEq

/-- The payload expression of `generateWithGitee`: optional fields are spread
in only when truthy (`""` size and `0` steps are falsy and omitted). -/
def giteePayload (request : ZImageGenerateRequest) : GiteePayload where
  prompt := request.prompt
  model := jsOr request.model "z-image-turbo"
  size :=
    match request.size with
    | some s => if s = "" then none else some s
    | none => none
  num_inference_steps :=
    match request.numInferenceSteps with
    | some n => if n = 0 then none else some n
    | none => none

/-- `config.pricing?.giteeImage || 30`. -/
def giteeCostOf (config : SystemConfig) : Nat :=
  match config.pricing with
  | none => 30
  | some p =>
    match p.giteeImage with
    | none => 30
    | some v => if v = 0 then 30 else v

/-- The response handling of `generateWithGitee`, from the `if (!response.ok)`
check onward. -/
def giteeHandleReply (config : SystemConfig) (r : GiteeReply) :
    Except String GenerateResult :=
  match r with
  | .httpError status body =>
    .error ("Gitee API 错误 (" ++ toString status ++ "): " ++ extractErrMsg body)
  | .success dataOpt =>
    match dataOpt with
    | none => .error "Gitee API 返回成功但未包含图片数据"
    | some [] => .error "Gitee API 返回成功但未包含图片数据"
    | some (imageData :: _) =>
      if imageData.b64_json = "" then
        .error "Gitee API 返回成功但未包含图片数据"
      else
        let mimeType := jsOr imageData.type "image/png"
        let base64Image := "data:" ++ mimeType ++ ";base64,"
          ++ imageData.b64_json
        .ok { type := "gitee-image", url := base64Image,
              cost := giteeCostOf config }

/-- `generateWithGitee`: `envGiteeApiKey` models `process.env.GITEE_API_KEY`,
`giteeKeyIndex` the module counter (returned updated), `reply` the outcome of
the POST as a function of the payload sent.  The base-URL computation has no
observable effect beyond the oracle. -/
def generateWithGitee (request : ZImageGenerateRequest) (config : SystemConfig)
    (envGiteeApiKey : Option String) (giteeKeyIndex : Nat)
    (reply : GiteePayload → GiteeReply) : Except String GenerateResult × Nat :=
  let apiKeys := jsOr config.giteeApiKey (jsOr envGiteeApiKey "")
  if apiKeys = "" then
    (.error "Gitee API Key 未配置，请在管理后台配置 API 密钥", giteeKeyIndex)
  else
    match getNextGiteeApiKey apiKeys giteeKeyIndex with
    | (.error e, idx') => (.error e, idx')
    | (.ok _, idx') =>
      (giteeHandleReply config (reply (giteePayload request)), idx')

-- ========================================
-- ModelScope Adapter (`generateWithModelScope`)
-- ========================================

/-- One entry of `ModelScopeImageResponse.images`. -/
structure MSImage where
  url : String
deriving Repr, DecidableEq

/-- An ok body of the ModelScope generation POST; the sync branch reads
`images`, the async branch reads `task_id`, each may be absent. -/
structure MSSuccessBody where
  task_id : Option String
  images : Option (List MSImage)
deriving Repr, DecidableEq

/-- The observable outcome of the ModelScope generation POST. -/
inductive MSReply where
  | httpError (status : Nat) (body : HttpErrorBody)
  | success (body : MSSuccessBody)
deriving Repr, DecidableEq

/-- The JSON payload built by `generateWithModelScope`. -/
structure MSPayload where
  model : String
  prompt : String
  size : Option String
  loras : Option String
  image_url : Option (List String)
deriving Repr, DecidableEq

/-- The payload expression of `generateWithModelScope`: optional fields are
spread in only when truthy; `image_url` only when at least one URL resolved. -/
def modelScopePayload (request : ZImageGenerateRequest) (modelId : String)
    (imageUrls : List String) : MSPayload where
  model := modelId
  prompt := request.prompt
  size :=
    match request.size with
    | some s => if s = "" then none else some s
    | none => none
  loras :=
    match request.loras with
    | some s => if s = "" then none else some s
    | none => none
  image_url := if imageUrls.length > 0 then some imageUrls else none

/-- `config.pricing?.zimageImage || 30`. -/
def zimageCostOf (config : SystemConfig) : Nat :=
  match config.pricing with
  | none => 30
  | some p =>
    match p.zimageImage with
    | none => 30
    | some v => if v = 0 then 30 else v

/-- `request.images && request.images.length > 0 ? await resolveImageUrls(...) : []`. -/
def resolveRequestImages (request : ZImageGenerateRequest)
    (config : SystemConfig) (nowAt : Nat → Nat)
    (upload : String → String → Option String) : Except String (List String) :=
  match request.images with
  | some imgs =>
    if imgs.length > 0 then resolveImageUrls imgs config nowAt upload
    else .ok []
  | none => .ok []

/-- The response handling of `generateWithModelScope`, from the
`if (!response.ok)` check onward. -/
def msHandleReply (config : SystemConfig) (useAsync : Bool)
    (taskReplies : Nat → TaskPollReply) (fetchImage : String → DownloadReply)
    (r : MSReply) : Except String GenerateResult :=
  match r with
  | .httpError status body =>
    .error ("ModelScope API 错误 (" ++ toString status ++ "): "
      ++ extractErrMsg body)
  | .success body =>
    if useAsync then
      if jsOr body.task_id "" = "" then
        .error "ModelScope API 未返回任务 ID"
      else
        match pollModelScopeTask taskReplies with
        | .error e => .error e
        | .ok imageUrl =>
          match downloadImageAsBase64 fetchImage imageUrl with
          | .error e => .error e
          | .ok base64Image =>
            .ok { type := "zimage-image", url := base64Image,
                  cost := zimageCostOf config }
    else
      match body.images with
      | none => .error "ModelScope API 返回成功但未包含图片"
      | some [] => .error "ModelScope API 返回成功但未包含图片"
      | some (img :: _) =>
        if img.url = "" then
          .error "ModelScope API 返回成功但未包含图片"
        else
          match downloadImageAsBase64 fetchImage img.url with
          | .error e => .error e
          | .ok base64Image =>
            .ok { type := "zimage-image", url := base64Image,
                  cost := zimageCostOf config }

/-- `generateWithModelScope`.  Oracles: `upload`/`nowAt` for the Reference
Resolver, `reply` for the generation POST, `taskReplies` for the Task Poller's
GETs, `fetchImage` for the image download.  Besides the result, returns
whether the generation POST was actually issued (`true` exactly when control
reached the `fetch` of the source). -/
def generateWithModelScope (request : ZImageGenerateRequest)
    (config : SystemConfig) (envZimageApiKey : Option String)
    (nowAt : Nat → Nat) (upload : String → String → Option String)
    (reply : MSPayload → MSReply) (taskReplies : Nat → TaskPollReply)
    (fetchImage : String → DownloadReply) :
    Except String GenerateResult × Bool :=
  let apiKey := jsOr config.zimageApiKey (jsOr envZimageApiKey "")
  if apiKey = "" then
    (.error "Z-Image API Key 未配置，请在管理后台配置 API 密钥", false)
  else
    let modelId := jsOr request.model "Tongyi-MAI/Z-Image-Turbo"
    let useAsync := ASYNC_MODELS.contains modelId
    match resolveRequestImages request config nowAt upload with
    | .error e => (.error e, false)
    | .ok imageUrls =>
      if REQUIRE_REFERENCE_MODELS.contains modelId ∧ imageUrls.length = 0 then
        (.error "该模型需要参考图", false)
      else
        (msHandleReply config useAsync taskReplies fetchImage
          (reply (modelScopePayload request modelId imageUrls)), true)

-- ========================================
-- Helper lemmas
-- ========================================

lemma getNextGiteeApiKey_ok (keys : String) (c : Nat)
    (h : splitKeys keys ≠ []) :
    getNextGiteeApiKey keys c
      = (.ok ((splitKeys keys).getD (c % (splitKeys keys).length) ""), c + 1) := by
  have hlen : ¬ (splitKeys keys).length = 0 := by
    simpa [List.length_eq_zero] using h
  simp [getNextGiteeApiKey, hlen]

lemma rotatorRun_eq (keys : String) (h : splitKeys keys ≠ []) :
    ∀ (n c : Nat), rotatorRun keys c n
      = (List.range n).map
          (fun j => (splitKeys keys).getD ((c + j) % (splitKeys keys).length) "")
  | 0, _ => by simp [rotatorRun]
  | n + 1, c => by
    simp only [rotatorRun, getNextGiteeApiKey_ok keys c h]
    rw [rotatorRun_eq keys h n (c + 1), List.range_succ_eq_map]
    simp only [List.map_cons, List.map_map, Nat.add_zero]
    refine congrArg _ (List.map_congr_left fun j _ => ?_)
    simp only [Function.comp_apply, Nat.succ_eq_add_one]
    congr 2
    omega

-- ========================================
-- Claim theorems
-- ========================================

/-- C3: for a credential string with at least one trimmed non-empty entry,
the Key Rotator returns the entry at `counter mod length` and increments the
counter, the selected index is always in range, and `n` successive selections
are exactly the entries at positions `(c+j) mod length`, i.e. they cycle
through the list in order before repeating. -/
theorem claim3_rotator_cycles (keys : String) (c n : Nat)
    (h : splitKeys keys ≠ []) :
    getNextGiteeApiKey keys c
      = (.ok ((splitKeys keys).getD (c % (splitKeys keys).length) ""), c + 1)
    ∧ c % (splitKeys keys).length < (splitKeys keys).length
    ∧ rotatorRun keys c n
      = (List.range n).map
          (fun j => (splitKeys keys).getD ((c + j) % (splitKeys keys).length) "") := by
  have hlen : (splitKeys keys).length ≠ 0 := by
    simpa [List.length_eq_zero] using h
  exact ⟨getNextGiteeApiKey_ok keys c h,
    Nat.mod_lt _ (Nat.pos_of_ne_zero hlen), rotatorRun_eq keys h n c⟩

theorem claim3_rotator_cycles_witness :
    getNextGiteeApiKey "a, b ,c" 4 = (.ok "b", 5)
    ∧ rotatorRun "a, b ,c" 0 7 = ["a", "b", "c", "a", "b", "c", "a"] := by
  have h4 := claim3_rotator_cycles "a, b ,c" 4 0 (by decide)
  have h0 := claim3_rotator_cycles "a, b ,c" 0 7 (by decide)
  exact ⟨h4.1.trans (by rfl), h0.2.2.trans (by rfl)⟩

/-- C9: on a credential string whose comma-split trimmed entries are all
empty, the Key Rotator fails with the configuration error and returns the
rotation counter unchanged (no index selection happens). -/
theorem claim9_rotator_empty_config (keys : String) (c : Nat)
    (h : ∀ e ∈ (splitComma keys).map jsTrim, e = "") :
    getNextGiteeApiKey keys c = (.error "Gitee API Key 未配置", c) := by
  have hnil : splitKeys keys = [] := by
    simp only [splitKeys, List.filter_eq_nil_iff]
    intro a ha
    simpa using h a ha
  simp [getNextGiteeApiKey, hnil]

theorem claim9_rotator_empty_config_witness :
    getNextGiteeApiKey " , ,," 5 = (.error "Gitee API Key 未配置", 5) :=
  claim9_rotator_empty_config " , ,," 5 (by decide)

/-- A reply is non-terminal when it is HTTP-successful and its body's
`task_status` is neither `SUCCEED` nor `FAILED` (covering `PENDING`,
`RUNNING` and any unrecognized string). -/
def nonTerminalReply (reply : TaskPollReply) : Prop :=
  ∃ r, reply = .body r ∧ r.task_status ≠ "SUCCEED" ∧ r.task_status ≠ "FAILED"

lemma pollAttempts_timeout (replies : Nat → TaskPollReply) :
    ∀ (remaining attempt : Nat),
    (∀ i, attempt ≤ i → i < attempt + remaining → nonTerminalReply (replies i)) →
    pollAttempts replies attempt remaining = .error "ModelScope 任务超时"
  | 0, _, _ => rfl
  | remaining + 1, attempt, h => by
    obtain ⟨r, hr, hs, hf⟩ :=
      h attempt (Nat.le_refl _) (by omega)
    simp only [pollAttempts, hr, if_neg hs, if_neg hf]
    exact pollAttempts_timeout replies remaining (attempt + 1)
      (fun i h1 h2 => h i (by omega) (by omega))

/-- C1: when all 60 task-status responses of a poll run are HTTP-successful
with a non-terminal `task_status` (`PENDING`, `RUNNING`, or any unrecognized
string), the Task Poller fails with the timeout error — in particular it
never returns success. -/
theorem claim1_poller_timeout (replies : Nat → TaskPollReply)
    (h : ∀ i < TASK_POLL_MAX_ATTEMPTS, nonTerminalReply (replies i)) :
    pollModelScopeTask replies = .error "ModelScope 任务超时"
    ∧ ∀ u, pollModelScopeTask replies ≠ .ok u := by
  have ht : pollModelScopeTask replies = .error "ModelScope 任务超时" :=
    pollAttempts_timeout replies TASK_POLL_MAX_ATTEMPTS 0
      (fun i _ h2 => h i (by omega))
  exact ⟨ht, fun u hu => by rw [ht] at hu; exact Except.noConfusion hu⟩

/-- A run of task-status replies that stays non-terminal forever, mixing the
two documented non-terminal states with an unrecognized one. -/
def stuckTaskReplies (i : Nat) : TaskPollReply :=
  let s :=
    if i % 3 = 0 then "PENDING"
    else if i % 3 = 1 then "RUNNING"
    else "BRAND_NEW_STATUS"
  .body { task_status := s, output_images := none, message := none }

theorem claim1_poller_timeout_witness :
    pollModelScopeTask stuckTaskReplies = .error "ModelScope 任务超时"
    ∧ pollModelScopeTask stuckTaskReplies ≠ .ok "x" := by
  have hmain := claim1_poller_timeout stuckTaskReplies
    (fun i _ => by
      refine ⟨_, rfl, ?_, ?_⟩ <;>
        · dsimp only [stuckTaskReplies]
          split <;> first | decide | (split <;> decide))
  exact ⟨hmain.1, hmain.2 "x"⟩

/-- The Reference Resolver contract as the spec words it: one output per
entry with non-empty data, in input order — empty entries skipped, http(s)
entries passed through, all others replaced by their upload URL. -/
def resolverSpec (nowAt : Nat → Nat) (upload : String → String → Option String)
    (images : List ZImageRef) : List String :=
  images.enum.filterMap fun p =>
    if p.2.data = "" then none
    else if isHttpUrl p.2.data then some p.2.data
    else some ((upload p.2.data (uploadFilename (nowAt p.1) p.1)).getD "")

lemma resolveImageUrlsAux_ok (config : SystemConfig) (nowAt : Nat → Nat)
    (upload : String → String → Option String) :
    ∀ (images : List ZImageRef) (i : Nat),
    (∀ p ∈ images.enumFrom i, p.2.data ≠ "" → isHttpUrl p.2.data = false →
      jsTruthy config.picuiApiKey = true
      ∧ (upload p.2.data (uploadFilename (nowAt p.1) p.1)).getD "" ≠ "") →
    resolveImageUrlsAux config nowAt upload images i
      = .ok ((images.enumFrom i).filterMap fun p =>
          if p.2.data = "" then none
          else if isHttpUrl p.2.data then some p.2.data
          else some ((upload p.2.data (uploadFilename (nowAt p.1) p.1)).getD ""))
  | [], i, _ => by simp [resolveImageUrlsAux, List.enumFrom]
  | img :: rest, i, h => by
    have hcons : (img :: rest).enumFrom i = (i, img) :: rest.enumFrom (i + 1) :=
      rfl
    have htail := resolveImageUrlsAux_ok config nowAt upload rest (i + 1)
      (fun p hp => h p (by rw [hcons]; exact List.mem_cons_of_mem _ hp))
    rw [hcons, List.filterMap_cons]
    by_cases hd : img.data = ""
    · simp only [resolveImageUrlsAux, hd, if_pos rfl, htail]
      simp [hd]
    · by_cases hh : isHttpUrl img.data
      · simp only [resolveImageUrlsAux, if_neg hd, hh, if_pos rfl, htail]
        simp [hd, hh, Except.map]
      · obtain ⟨hkey, hup⟩ := h (i, img) (by rw [hcons]; exact List.mem_cons_self _ _)
          hd (by simpa using hh)
        simp only [resolveImageUrlsAux, if_neg hd, hh, hkey, Bool.not_true,
          Bool.false_eq_true, if_false, if_neg hup, htail]
        simp [hd, hh, Except.map]

/-- C4: when the image-host key is configured and every needed upload
returns a URL, the Reference Resolver succeeds and its output is exactly
one URL per entry with non-empty data, in input order: empty entries are
skipped without a placeholder, http(s) entries pass through unchanged, and
every other entry is replaced by its upload URL. -/
theorem claim4_resolver_order (images : List ZImageRef) (config : SystemConfig)
    (nowAt : Nat → Nat) (upload : String → String → Option String)
    (h : ∀ p ∈ images.enum, p.2.data ≠ "" → isHttpUrl p.2.data = false →
      jsTruthy config.picuiApiKey = true
      ∧ (upload p.2.data (uploadFilename (nowAt p.1) p.1)).getD "" ≠ "") :
    resolveImageUrls images config nowAt upload
      = .ok (resolverSpec nowAt upload images) :=
  resolveImageUrlsAux_ok config nowAt upload images 0 h

theorem claim4_resolver_order_witness :
    resolveImageUrls [⟨"http://a"⟩, ⟨""⟩, ⟨"BASE64B"⟩]
      { picuiApiKey := some "k" } (fun _ => 111)
      (fun _ f => some ("https://img.host/" ++ f))
      = .ok ["http://a", "https://img.host/input_111_2.jpg"] :=
  (claim4_resolver_order [⟨"http://a"⟩, ⟨""⟩, ⟨"BASE64B"⟩]
    { picuiApiKey := some "k" } (fun _ => 111)
    (fun _ f => some ("https://img.host/" ++ f)) (by decide)).trans (by rfl)

lemma generateWithGitee_reaches (request : ZImageGenerateRequest)
    (config : SystemConfig) (envG : Option String) (idx : Nat)
    (reply : GiteePayload → GiteeReply)
    (hkeys : splitKeys (jsOr config.giteeApiKey (jsOr envG "")) ≠ []) :
    generateWithGitee request config envG idx reply
      = (giteeHandleReply config (reply (giteePayload request)), idx + 1) := by
  have hne : jsOr config.giteeApiKey (jsOr envG "") ≠ "" := by
    intro he
    exact hkeys (by rw [he]; rfl)
  simp only [generateWithGitee, if_neg hne,
    getNextGiteeApiKey_ok (jsOr config.giteeApiKey (jsOr envG "")) idx hkeys]

lemma generateWithModelScope_reaches (request : ZImageGenerateRequest)
    (config : SystemConfig) (envZ : Option String) (nowAt : Nat → Nat)
    (upload : String → String → Option String) (reply : MSPayload → MSReply)
    (taskReplies : Nat → TaskPollReply) (fetchImage : String → DownloadReply)
    (us : List String)
    (hkey : jsOr config.zimageApiKey (jsOr envZ "") ≠ "")
    (hres : resolveRequestImages request config nowAt upload = .ok us)
    (hreq : ¬(REQUIRE_REFERENCE_MODELS.contains
        (jsOr request.model "Tongyi-MAI/Z-Image-Turbo") = true
      ∧ us.length = 0)) :
    generateWithModelScope request config envZ nowAt upload reply taskReplies
        fetchImage
      = (msHandleReply config
          (ASYNC_MODELS.contains (jsOr request.model "Tongyi-MAI/Z-Image-Turbo"))
          taskReplies fetchImage
          (reply (modelScopePayload request
            (jsOr request.model "Tongyi-MAI/Z-Image-Turbo") us)), true) := by
  simp only [generateWithModelScope, if_neg hkey, hres]
  rw [if_neg]
  simpa using hreq

/-- C2: on an HTTP-success Gitee response whose first entry carries base64
data, the adapter returns a `gitee-image` result whose url is the data URI
composed from the entry's declared mime type (defaulting to `image/png`) and
its base64 payload. -/
theorem claim2_gitee_data_uri (request : ZImageGenerateRequest)
    (config : SystemConfig) (envG : Option String) (idx : Nat) (b64 : String)
    (ty : Option String) (rest : List GiteeImageEntry)
    (reply : GiteePayload → GiteeReply)
    (hkeys : splitKeys (jsOr config.giteeApiKey (jsOr envG "")) ≠ [])
    (hreply : reply (giteePayload request)
      = .success (some ({ b64_json := b64, type := ty } :: rest)))
    (hb : b64 ≠ "") :
    generateWithGitee request config envG idx reply
      = (.ok { type := "gitee-image",
               url := "data:" ++ jsOr ty "image/png" ++ ";base64," ++ b64,
               cost := giteeCostOf config }, idx + 1) := by
  rw [generateWithGitee_reaches request config envG idx reply hkeys, hreply]
  simp [giteeHandleReply, hb]

theorem claim2_gitee_data_uri_witness :
    generateWithGitee { prompt := "p" } { giteeApiKey := some "k" } none 0
      (fun _ => .success (some [{ b64_json := "QUJD", type := some "image/png" }]))
      = (.ok { type := "gitee-image", url := "data:image/png;base64,QUJD",
               cost := 30 }, 1) :=
  (claim2_gitee_data_uri { prompt := "p" } { giteeApiKey := some "k" } none 0
    "QUJD" (some "image/png") [] _ (by decide) rfl (by decide)).trans (by rfl)

/-- C7 counterexample: an HTTP-success Gitee response whose second entry
carries base64 data but whose first entry does not.  The claim says the
adapter must succeed (some entry has data); the code checks only
`data.data[0].b64_json` and fails with the "no image data" error. -/
theorem claim7_counterexample :
    ((⟨"QUJD", some "image/png"⟩ : GiteeImageEntry) ∈
        [(⟨"", some "image/png"⟩ : GiteeImageEntry), ⟨"QUJD", some "image/png"⟩]
      ∧ ("QUJD" : String) ≠ "")
    ∧ (generateWithGitee { prompt := "p" } { giteeApiKey := some "k" } none 0
        (fun _ => .success
          (some [⟨"", some "image/png"⟩, ⟨"QUJD", some "image/png"⟩]))).1
      = .error "Gitee API 返回成功但未包含图片数据" :=
  ⟨⟨by decide, by decide⟩, by rfl⟩

/-- C7 amended: on an HTTP-success Gitee response the adapter fails with the
"no image data" error iff the `data` array is absent, empty, or its FIRST
entry lacks base64 data; when the first entry carries base64 data the adapter
succeeds using that first entry (later entries are never consulted). -/
theorem claim7_amended_first_entry (request : ZImageGenerateRequest)
    (config : SystemConfig) (envG : Option String) (idx : Nat)
    (l : List GiteeImageEntry)
    (hkeys : splitKeys (jsOr config.giteeApiKey (jsOr envG "")) ≠ []) :
    (generateWithGitee request config envG idx (fun _ => .success none)).1
      = .error "Gitee API 返回成功但未包含图片数据"
    ∧ ((generateWithGitee request config envG idx (fun _ => .success (some l))).1
        = .error "Gitee API 返回成功但未包含图片数据"
      ↔ (l.headD ⟨"", none⟩).b64_json = "")
    ∧ ((l.headD ⟨"", none⟩).b64_json ≠ "" →
      (generateWithGitee request config envG idx (fun _ => .success (some l))).1
        = .ok { type := "gitee-image",
                url := "data:" ++ jsOr (l.headD ⟨"", none⟩).type "image/png"
                  ++ ";base64," ++ (l.headD ⟨"", none⟩).b64_json,
                cost := giteeCostOf config }) := by
  rw [generateWithGitee_reaches request config envG idx
      (fun _ => .success none) hkeys,
    generateWithGitee_reaches request config envG idx
      (fun _ => .success (some l)) hkeys]
  refine ⟨rfl, ?_, ?_⟩
  · cases l with
    | nil => simp [giteeHandleReply]
    | cons e rest =>
      by_cases he : e.b64_json = "" <;> simp [giteeHandleReply, he]
  · intro hne
    cases l with
    | nil => exact absurd rfl hne
    | cons e rest => simp_all [giteeHandleReply]

theorem claim7_amended_first_entry_witness :
    (generateWithGitee { prompt := "p" } { giteeApiKey := some "k" } none 0
      (fun _ => .success (some [⟨"QUJD", some "image/jpeg"⟩]))).1
      = .ok { type := "gitee-image", url := "data:image/jpeg;base64,QUJD",
              cost := 30 } := by
  have h := claim7_amended_first_entry { prompt := "p" }
    { giteeApiKey := some "k" } none 0 [⟨"QUJD", some "image/jpeg"⟩] (by decide)
  exact (h.2.2 (by decide)).trans (by rfl)

/-- C8: on a non-2xx provider response whose JSON body is
`{error:{message:"bad key"}}`, both adapters fail with a message that is the
adapter's prefix, the HTTP status code in parentheses, and `"bad key"`; when
the body is not parseable JSON the raw body text is used instead. -/
theorem claim8_error_messages :
    (∀ (request : ZImageGenerateRequest) (config : SystemConfig)
       (envG : Option String) (idx : Nat) (status : Nat) (m : Option String)
       (raw : String),
      splitKeys (jsOr config.giteeApiKey (jsOr envG "")) ≠ [] →
      (generateWithGitee request config envG idx
          (fun _ => .httpError status (.json ⟨some "bad key", m⟩ raw))).1
        = .error ("Gitee API 错误 (" ++ toString status ++ "): " ++ "bad key")
      ∧ (generateWithGitee request config envG idx
          (fun _ => .httpError status (.notJson raw))).1
        = .error ("Gitee API 错误 (" ++ toString status ++ "): " ++ raw))
    ∧ (∀ (request : ZImageGenerateRequest) (config : SystemConfig)
         (envZ : Option String) (nowAt : Nat → Nat)
         (upload : String → String → Option String)
         (taskReplies : Nat → TaskPollReply)
         (fetchImage : String → DownloadReply) (status : Nat)
         (m : Option String) (raw : String) (us : List String),
      jsOr config.zimageApiKey (jsOr envZ "") ≠ "" →
      resolveRequestImages request config nowAt upload = .ok us →
      ¬(REQUIRE_REFERENCE_MODELS.contains
          (jsOr request.model "Tongyi-MAI/Z-Image-Turbo") = true
        ∧ us.length = 0) →
      (generateWithModelScope request config envZ nowAt upload
          (fun _ => .httpError status (.json ⟨some "bad key", m⟩ raw))
          taskReplies fetchImage).1
        = .error ("ModelScope API 错误 (" ++ toString status ++ "): "
            ++ "bad key")
      ∧ (generateWithModelScope request config envZ nowAt upload
          (fun _ => .httpError status (.notJson raw)) taskReplies fetchImage).1
        = .error ("ModelScope API 错误 (" ++ toString status ++ "): " ++ raw)) := by
  constructor
  · intro request config envG idx status m raw hkeys
    rw [generateWithGitee_reaches request config envG idx
        (fun _ => .httpError status (.json ⟨some "bad key", m⟩ raw)) hkeys,
      generateWithGitee_reaches request config envG idx
        (fun _ => .httpError status (.notJson raw)) hkeys]
    exact ⟨rfl, rfl⟩
  · intro request config envZ nowAt upload taskReplies fetchImage status m raw
      us hzkey hres hreq
    rw [generateWithModelScope_reaches request config envZ nowAt upload
        (fun _ => .httpError status (.json ⟨some "bad key", m⟩ raw))
        taskReplies fetchImage us hzkey hres hreq,
      generateWithModelScope_reaches request config envZ nowAt upload
        (fun _ => .httpError status (.notJson raw))
        taskReplies fetchImage us hzkey hres hreq]
    exact ⟨rfl, rfl⟩

theorem claim8_error_messages_witness :
    (generateWithGitee { prompt := "p" } { giteeApiKey := some "k" } none 0
        (fun _ => .httpError 401 (.json ⟨some "bad key", none⟩ "raw body"))).1
      = .error "Gitee API 错误 (401): bad key"
    ∧ (generateWithGitee { prompt := "p" } { giteeApiKey := some "k" } none 0
        (fun _ => .httpError 500 (.notJson "Bad Gateway"))).1
      = .error "Gitee API 错误 (500): Bad Gateway"
    ∧ (generateWithModelScope { prompt := "p" } { zimageApiKey := some "k2" }
        none (fun _ => 0) (fun _ _ => none)
        (fun _ => .httpError 401 (.json ⟨some "bad key", none⟩ "raw body"))
        (fun _ => .body { task_status := "RUNNING", output_images := none,
                          message := none })
        (fun _ => ⟨true, 200, "", none⟩)).1
      = .error "ModelScope API 错误 (401): bad key" := by
  have hg1 := claim8_error_messages.1 { prompt := "p" }
    { giteeApiKey := some "k" } none 0 401 none "raw body" (by decide)
  have hg2 := claim8_error_messages.1 { prompt := "p" }
    { giteeApiKey := some "k" } none 0 500 none "Bad Gateway" (by decide)
  have hm := claim8_error_messages.2 { prompt := "p" }
    { zimageApiKey := some "k2" } none (fun _ => 0) (fun _ _ => none)
    (fun _ => .body { task_status := "RUNNING", output_images := none,
                      message := none })
    (fun _ => ⟨true, 200, "", none⟩) 401 none "raw body" []
    (by decide) rfl (by decide)
  exact ⟨hg1.1.trans (by rfl), hg2.2.trans (by rfl), hm.1.trans (by rfl)⟩

/-- C6: when the effective ModelScope model is in `REQUIRE_REFERENCE_MODELS`
and zero reference URLs resolve, the adapter fails with the
"reference image required" validation error and the generation POST is never
issued (second component `false`). -/
theorem claim6_require_reference (request : ZImageGenerateRequest)
    (config : SystemConfig) (envZ : Option String) (nowAt : Nat → Nat)
    (upload : String → String → Option String) (reply : MSPayload → MSReply)
    (taskReplies : Nat → TaskPollReply) (fetchImage : String → DownloadReply)
    (hkey : jsOr config.zimageApiKey (jsOr envZ "") ≠ "")
    (hmodel : REQUIRE_REFERENCE_MODELS.contains
      (jsOr request.model "Tongyi-MAI/Z-Image-Turbo") = true)
    (hres : resolveRequestImages request config nowAt upload = .ok []) :
    generateWithModelScope request config envZ nowAt upload reply taskReplies
        fetchImage
      = (.error "该模型需要参考图", false) := by
  simp only [generateWithModelScope, if_neg hkey, hres]
  rw [if_pos ⟨hmodel, rfl⟩]

theorem claim6_require_reference_witness :
    generateWithModelScope
      { prompt := "p", model := some "Qwen/Qwen-Image-Edit-2509" }
      { zimageApiKey := some "k" } none (fun _ => 0) (fun _ _ => none)
      (fun _ => .success { task_id := some "t", images := none })
      (fun _ => .body { task_status := "RUNNING", output_images := none,
                        message := none })
      (fun _ => ⟨true, 200, "", none⟩)
      = (.error "该模型需要参考图", false) :=
  claim6_require_reference
    { prompt := "p", model := some "Qwen/Qwen-Image-Edit-2509" }
    { zimageApiKey := some "k" } none (fun _ => 0) (fun _ _ => none)
    (fun _ => .success { task_id := some "t", images := none })
    (fun _ => .body { task_status := "RUNNING", output_images := none,
                      message := none })
    (fun _ => ⟨true, 200, "", none⟩)
    (by decide) (by decide) rfl

/-- C5 counterexample: with pricing configured and `giteeImage` set to `0`,
a successful Gitee generation returns cost `30`, not the configured `0`
(`config.pricing?.giteeImage || 30` treats `0` as falsy). -/
theorem claim5_counterexample :
    ({ giteeApiKey := some "k",
       pricing := some { giteeImage := some 0, zimageImage := some 0 } }
        : SystemConfig).pricing.bind Pricing.giteeImage = some 0
    ∧ (generateWithGitee { prompt := "p" }
        { giteeApiKey := some "k",
          pricing := some { giteeImage := some 0, zimageImage := some 0 } }
        none 0
        (fun _ => .success (some [⟨"QUJD", some "image/png"⟩]))).1
      = .ok { type := "gitee-image", url := "data:image/png;base64,QUJD",
              cost := 30 }
    ∧ (30 : Nat) ≠ 0 :=
  ⟨rfl, by rfl, by decide⟩

/-- The amended cost rule: the configured price when present and nonzero,
otherwise the default 30 (an absent pricing table, an absent per-channel
price, and a zero price all fall back to 30). -/
def configuredOrDefault (price : Option Nat) : Nat :=
  match price with
  | some v => if v = 0 then 30 else v
  | none => 30

lemma giteeHandleReply_cost (config : SystemConfig) (rep : GiteeReply)
    (r : GenerateResult) (h : giteeHandleReply config rep = .ok r) :
    r.cost = giteeCostOf config := by
  unfold giteeHandleReply at h
  repeat' split at h
  all_goals simp_all
  exact (congrArg GenerateResult.cost h.symm)

lemma msHandleReply_cost (config : SystemConfig) (useAsync : Bool)
    (taskReplies : Nat → TaskPollReply) (fetchImage : String → DownloadReply)
    (rep : MSReply) (r : GenerateResult)
    (h : msHandleReply config useAsync taskReplies fetchImage rep = .ok r) :
    r.cost = zimageCostOf config := by
  unfold msHandleReply at h
  repeat' split at h
  all_goals simp_all
  all_goals exact (congrArg GenerateResult.cost h.symm)

lemma generateWithGitee_cost (request : ZImageGenerateRequest)
    (config : SystemConfig) (envG : Option String) (idx : Nat)
    (reply : GiteePayload → GiteeReply) (r : GenerateResult) (n : Nat)
    (h : generateWithGitee request config envG idx reply = (.ok r, n)) :
    r.cost = giteeCostOf config := by
  by_cases hk : jsOr config.giteeApiKey (jsOr envG "") = ""
  · simp [generateWithGitee, hk] at h
  · rcases hrot : getNextGiteeApiKey (jsOr config.giteeApiKey (jsOr envG "")) idx
      with ⟨res, idx'⟩
    cases res with
    | error e => simp [generateWithGitee, hk, hrot] at h
    | ok k =>
      simp only [generateWithGitee, if_neg hk, hrot] at h
      have h1 := congrArg Prod.fst h
      simp only at h1
      exact giteeHandleReply_cost config _ r h1

lemma generateWithModelScope_cost (request : ZImageGenerateRequest)
    (config : SystemConfig) (envZ : Option String) (nowAt : Nat → Nat)
    (upload : String → String → Option String) (reply : MSPayload → MSReply)
    (taskReplies : Nat → TaskPollReply) (fetchImage : String → DownloadReply)
    (r : GenerateResult) (b : Bool)
    (h : generateWithModelScope request config envZ nowAt upload reply
      taskReplies fetchImage = (.ok r, b)) :
    r.cost = zimageCostOf config := by
  by_cases hk : jsOr config.zimageApiKey (jsOr envZ "") = ""
  · simp [generateWithModelScope, hk] at h
  · cases hres : resolveRequestImages request config nowAt upload with
    | error e => simp [generateWithModelScope, hk, hres] at h
    | ok us =>
      by_cases hreq : REQUIRE_REFERENCE_MODELS.contains
          (jsOr request.model "Tongyi-MAI/Z-Image-Turbo") = true
        ∧ us.length = 0
      · simp only [generateWithModelScope, if_neg hk, hres] at h
        rw [if_pos hreq] at h
        simp at h
      · simp only [generateWithModelScope, if_neg hk, hres] at h
        rw [if_neg hreq] at h
        have h1 := congrArg Prod.fst h
        simp only at h1
        exact msHandleReply_cost config _ taskReplies fetchImage _ r h1

lemma giteeCostOf_eq (config : SystemConfig) :
    giteeCostOf config
      = configuredOrDefault (config.pricing.bind Pricing.giteeImage) := by
  rcases config with ⟨_, _, _, _, _, pr⟩
  cases pr with
  | none => rfl
  | some p =>
    cases hp : p.giteeImage <;>
      simp [giteeCostOf, configuredOrDefault, Option.bind, hp]

lemma zimageCostOf_eq (config : SystemConfig) :
    zimageCostOf config
      = configuredOrDefault (config.pricing.bind Pricing.zimageImage) := by
  rcases config with ⟨_, _, _, _, _, pr⟩
  cases pr with
  | none => rfl
  | some p =>
    cases hp : p.zimageImage <;>
      simp [zimageCostOf, configuredOrDefault, Option.bind, hp]

/-- C5 amended: on every successful generation of either adapter (the
ModelScope conjunct covers both the synchronous and the asynchronous path,
which share the cost expression), the returned cost is the configured price
when it is set and nonzero, and the default 30 otherwise (absent pricing,
absent per-channel price, or a configured price of 0).  The two conjuncts are
independent: each quantifies its own request, config and oracles. -/
theorem claim5_amended_cost :
    (∀ (request : ZImageGenerateRequest) (config : SystemConfig)
       (envG : Option String) (idx : Nat) (greply : GiteePayload → GiteeReply)
       (r : GenerateResult) (n : Nat),
      generateWithGitee request config envG idx greply = (.ok r, n) →
      r.cost = configuredOrDefault (config.pricing.bind Pricing.giteeImage))
    ∧ (∀ (request : ZImageGenerateRequest) (config : SystemConfig)
         (envZ : Option String) (nowAt : Nat → Nat)
         (upload : String → String → Option String)
         (mreply : MSPayload → MSReply) (taskReplies : Nat → TaskPollReply)
         (fetchImage : String → DownloadReply) (r : GenerateResult) (b : Bool),
      generateWithModelScope request config envZ nowAt upload mreply
          taskReplies fetchImage = (.ok r, b) →
      r.cost = configuredOrDefault (config.pricing.bind Pricing.zimageImage)) :=
  ⟨fun request config envG idx greply r n hg =>
      (generateWithGitee_cost request config envG idx greply r n hg).trans
        (giteeCostOf_eq config),
    fun request config envZ nowAt upload mreply taskReplies fetchImage r b hm =>
      (generateWithModelScope_cost request config envZ nowAt upload mreply
        taskReplies fetchImage r b hm).trans (zimageCostOf_eq config)⟩

theorem claim5_amended_cost_witness :
    (42 : Nat) = configuredOrDefault
      (({ giteeApiKey := some "k",
          pricing := some { giteeImage := some 42, zimageImage := none } }
        : SystemConfig).pricing.bind Pricing.giteeImage)
    ∧ (77 : Nat) = configuredOrDefault
      (({ zimageApiKey := some "k2",
          pricing := some { giteeImage := none, zimageImage := some 77 } }
        : SystemConfig).pricing.bind Pricing.zimageImage) :=
  ⟨claim5_amended_cost.1 { prompt := "p" }
      { giteeApiKey := some "k",
        pricing := some { giteeImage := some 42, zimageImage := none } }
      none 0 (fun _ => .success (some [⟨"QUJD", some "image/png"⟩]))
      ⟨"gitee-image", "data:image/png;base64,QUJD", 42⟩ 1 (by rfl),
    claim5_amended_cost.2 { prompt := "p" }
      { zimageApiKey := some "k2",
        pricing := some { giteeImage := none, zimageImage := some 77 } }
      none (fun _ => 0) (fun _ _ => none)
      (fun _ => .success { task_id := none, images := some [⟨"http://img"⟩] })
      (fun _ => .body { task_status := "RUNNING", output_images := none,
                        message := none })
      (fun _ => ⟨true, 200, "QUJD", some "image/png"⟩)
      ⟨"zimage-image", "data:image/png;base64,QUJD", 77⟩ true (by rfl)⟩

/-- C10: optional request fields holding falsy values behave exactly as if
absent: an empty-string model falls back to the provider default
(`z-image-turbo` for Gitee, `Tongyi-MAI/Z-Image-Turbo` for ModelScope, so the
adapters behave as if that default had been requested), and an empty size, a
zero `numInferenceSteps`, and an absent or empty `loras` are omitted from the
provider payload rather than sent. -/
theorem claim10_falsy_optional_fields (r : ZImageGenerateRequest)
    (modelId : String) (urls : List String) (config : SystemConfig)
    (envG envZ : Option String) (idx : Nat) (nowAt : Nat → Nat)
    (upload : String → String → Option String)
    (greply : GiteePayload → GiteeReply) (mreply : MSPayload → MSReply)
    (taskReplies : Nat → TaskPollReply) (fetchImage : String → DownloadReply) :
    (giteePayload { r with model := some "" }).model = "z-image-turbo"
    ∧ giteePayload { r with model := some "" }
      = giteePayload { r with model := none }
    ∧ (giteePayload { r with size := some "" }).size = none
    ∧ giteePayload { r with size := some "" }
      = giteePayload { r with size := none }
    ∧ (giteePayload { r with numInferenceSteps := some 0 }).num_inference_steps
      = none
    ∧ giteePayload { r with numInferenceSteps := some 0 }
      = giteePayload { r with numInferenceSteps := none }
    ∧ (modelScopePayload { r with size := some "" } modelId urls).size = none
    ∧ modelScopePayload { r with size := some "" } modelId urls
      = modelScopePayload { r with size := none } modelId urls
    ∧ (modelScopePayload { r with loras := some "" } modelId urls).loras = none
    ∧ modelScopePayload { r with loras := some "" } modelId urls
      = modelScopePayload { r with loras := none } modelId urls
    ∧ generateWithGitee { r with model := some "" } config envG idx greply
      = generateWithGitee { r with model := some "z-image-turbo" } config envG
          idx greply
    ∧ generateWithModelScope { r with model := some "" } config envZ nowAt
        upload mreply taskReplies fetchImage
      = generateWithModelScope { r with model := some "Tongyi-MAI/Z-Image-Turbo" }
          config envZ nowAt upload mreply taskReplies fetchImage :=
  ⟨rfl, rfl, rfl, rfl, rfl, rfl, rfl, rfl, rfl, rfl, rfl, rfl⟩

end ZImage
